import Mathlib

/-
Verification of the Belsis Text-to-SQL backend.

Shallow embedding of the Python sources:
  backend/services/sql_validator.py   (validate_sql, DANGEROUS_KEYWORDS, INJECTION_PATTERNS)
  backend/services/sql_executor.py    (SQLExecutor.execute)
  backend/routes/chat.py              (calculate_confidence_score, chat)
  backend/indexing/schema_indexer.py  (SchemaIndexer.search)

Python strings are modelled as lists of characters (`Str`).  `str.upper` is
modelled per character via `Char.toUpper`, which is faithful on the ASCII
range (the denylisted SQL keywords and all characters relevant to the
properties below are ASCII).  The regex searches performed by the validator
are embedded as executable scanners over `Str`; each one is annotated with
the regex it implements.
-/

/-- Python strings, modelled as lists of characters. -/
abbrev Str := List Char

/-- Coerce a Lean string literal to the character-list representation. -/
def str (s : String) : Str := s.data

/-- The characters stripped by Python's `str.strip()` and matched by the
regex class `\s`, restricted to ASCII: space, tab, newline, carriage
return, vertical tab, form feed. -/
def isPySpace (c : Char) : Bool :=
  decide (c.toNat = 32 ∨ c.toNat = 9 ∨ c.toNat = 10 ∨ c.toNat = 13 ∨
          c.toNat = 11 ∨ c.toNat = 12)

/-- Python `str.strip()`: remove leading and trailing whitespace. -/
def pyStrip (s : Str) : Str :=
  ((s.dropWhile isPySpace).reverse.dropWhile isPySpace).reverse

/-- Python `str.upper()`, applied per character (faithful on ASCII). -/
def pyUpper (s : Str) : Str := s.map Char.toUpper

/-- ASCII word characters of the regex class `\w`: letters, digits, `_`. -/
def isWordNat (n : Nat) : Bool :=
  decide ((65 ≤ n ∧ n ≤ 90) ∨ (97 ≤ n ∧ n ≤ 122) ∨ (48 ≤ n ∧ n ≤ 57) ∨ n = 95)

/-- Word-character test on characters. -/
def isWordChar (c : Char) : Bool := isWordNat c.toNat

/-- A right word boundary holds at the head of `b`: end of string, or a
non-word character. -/
def rightBd : Str → Bool
  | [] => true
  | c :: _ => !isWordChar c

/-- A left word boundary holds after `a`: start of string, or `a` ends in a
non-word character (tested on the reversed string). -/
def leftBd (a : Str) : Bool := rightBd a.reverse

/-- `kw` (made of word characters) matches at the head of `s` with a word
boundary after it. -/
def wordAt (kw s : Str) : Bool := kw.isPrefixOf s && rightBd (s.drop kw.length)

/-- Scanner for `re.search(r"\b<kw>\b", s)` where `kw` consists of word
characters: `prev` records whether the character before the current
position is a word character. -/
def reWordSearchGo (kw : Str) : Bool → Str → Bool
  | prev, [] => !prev && wordAt kw []
  | prev, c :: rest => (!prev && wordAt kw (c :: rest)) || reWordSearchGo kw (isWordChar c) rest

/-- `re.search(r"\b<kw>\b", s)` for a keyword `kw` of word characters. -/
def reWordSearch (kw s : Str) : Bool := reWordSearchGo kw false s

/-- Substring containment, as Python's `in` on strings. -/
def hasSubstr (pat : Str) : Str → Bool
  | [] => pat.isPrefixOf []
  | c :: rest => pat.isPrefixOf (c :: rest) || hasSubstr pat rest

/-- Tokens of the simple regexes in `INJECTION_PATTERNS`: a literal
character, `\s*`, `\s+`, and `\s*$`. -/
inductive RTok where
  | lit (c : Char)
  | ws0
  | ws1
  | wsEnd

/-- Match a token sequence at the head of a string.  Whitespace is consumed
greedily, which coincides with the backtracking regex semantics here
because in every pattern used a whitespace class is followed by a
non-whitespace literal (or by the end anchor). -/
def matchToks : List RTok → Str → Bool
  | [], _ => true
  | RTok.lit _ :: _, [] => false
  | RTok.lit c :: ps, d :: s => c == d && matchToks ps s
  | RTok.ws0 :: ps, s => matchToks ps (s.dropWhile isPySpace)
  | RTok.ws1 :: _, [] => false
  | RTok.ws1 :: ps, d :: s => isPySpace d && matchToks ps (s.dropWhile isPySpace)
  | RTok.wsEnd :: _, s => s.all isPySpace

/-- `re.search` for a token pattern: try every start position. -/
def searchToks (ps : List RTok) : Str → Bool
  | [] => matchToks ps []
  | c :: rest => matchToks ps (c :: rest) || searchToks ps rest

/-- Literal tokens for a literal fragment of a pattern. -/
def litToks (s : Str) : List RTok := s.map RTok.lit

/-- The single-quote character (written by code point to keep sources
plain). -/
def squote : Char := Char.ofNat 39

/-- Scanner for `re.search(r"/\*.*\*/", s)`: a `/*` followed, with no
intervening newline (`.` does not match newlines), by `*/`. -/
def searchBlockComment : Str → Bool
  | [] => false
  | c :: rest =>
      (match c, rest with
       | '/', '*' :: rest2 =>
          hasSubstr (str "*/") (rest2.takeWhile (fun d => !(d == '\n')))
       | _, _ => false)
      || searchBlockComment rest

/-- Scanner for `re.findall(r"\(([^)]+)\)", s)`, fueled so that the
recursion is structural (and hence kernel-reducible): at a `(`, the greedy
run of non-`)` characters must be non-empty and closed by `)`; the captured
group is that run and scanning resumes after the `)`; otherwise scanning
resumes at the next character.  The fuel only bounds the number of steps;
`findParenGroups` supplies `s.length`, which never runs out because each
step consumes at least one character. -/
def findParenGroupsF : Nat → Str → List Str
  | _, [] => []
  | 0, _ => []
  | fuel + 1, c :: rest =>
    if c == '(' then
      match rest.dropWhile (fun d => !(d == ')')) with
      | [] => findParenGroupsF fuel rest
      | _ :: rest2 =>
        let inner := rest.takeWhile (fun d => !(d == ')'))
        if inner.isEmpty then findParenGroupsF fuel rest
        else inner :: findParenGroupsF fuel rest2
    else findParenGroupsF fuel rest

/-- The captured groups, in order, of the leftmost non-overlapping matches
of `\(([^)]+)\)`. -/
def findParenGroups (s : Str) : List Str := findParenGroupsF s.length s

/-- `DANGEROUS_KEYWORDS` from sql_validator.py, in source order. -/
def DANGEROUS_KEYWORDS : List Str :=
  [str "INSERT", str "UPDATE", str "DELETE", str "DROP", str "CREATE", str "ALTER",
   str "TRUNCATE", str "EXEC", str "EXECUTE", str "GRANT", str "REVOKE", str "ATTACH",
   str "DETACH", str "PRAGMA", str "VACUUM", str "REINDEX"]

/-- `INJECTION_PATTERNS` from sql_validator.py, in source order, each as an
executable search over the normalized query. -/
def INJECTION_PATTERNS : List (Str → Bool) :=
  [ -- r";\s*--"
    fun s => searchToks [RTok.lit ';', RTok.ws0, RTok.lit '-', RTok.lit '-'] s,
    -- r"--\s*$"
    fun s => searchToks [RTok.lit '-', RTok.lit '-', RTok.wsEnd] s,
    -- r"/\*.*\*/"
    fun s => searchBlockComment s,
    -- r"@@"
    fun s => searchToks (litToks (str "@@")) s,
    -- r"UNION\s+ALL\s+SELECT"
    fun s => searchToks (litToks (str "UNION") ++ [RTok.ws1] ++ litToks (str "ALL") ++
                         [RTok.ws1] ++ litToks (str "SELECT")) s,
    -- r"OR\s+1\s*=\s*1"
    fun s => searchToks (litToks (str "OR") ++
                         [RTok.ws1, RTok.lit '1', RTok.ws0, RTok.lit '=', RTok.ws0, RTok.lit '1']) s,
    -- r"OR\s+'1'\s*=\s*'1'"
    fun s => searchToks (litToks (str "OR") ++
                         [RTok.ws1, RTok.lit squote, RTok.lit '1', RTok.lit squote, RTok.ws0,
                          RTok.lit '=', RTok.ws0, RTok.lit squote, RTok.lit '1', RTok.lit squote]) s ]

/-- Error message of the empty-query rule. -/
def msgEmpty : Str := str "SQL sorgusu boş olamaz."

/-- Error message of the must-start-with-SELECT rule. -/
def msgSelectOnly : Str := str "Sadece SELECT sorguları desteklenmektedir."

/-- Error message of the dangerous-keyword rule. -/
def keywordMsg (kw : Str) : Str := str "Güvenlik ihlali: '" ++ kw ++ str "' ifadesi kullanılamaz."

/-- Error message of the multiple-statements rule. -/
def msgMulti : Str := str "Çoklu SQL ifadeleri desteklenmemektedir."

/-- Error message of the injection-pattern rule. -/
def msgInjection : Str := str "Güvenlik ihlali: Şüpheli SQL kalıbı tespit edildi."

/-- Error message of the dangerous-subquery rule. -/
def subqueryMsg (kw : Str) : Str := str "Güvenlik ihlali: Alt sorguda '" ++ kw ++ str "' kullanılamaz."

/-- First dangerous keyword (in source order) matching `\b<kw>\b` in `s`. -/
def findDangerous (s : Str) : Option Str :=
  DANGEROUS_KEYWORDS.find? (fun kw => reWordSearch kw s)

/-- First dangerous keyword found scanning the parenthesized groups in
order (outer loop over groups, inner loop over keywords). -/
def findDangerousInGroups : List Str → Option Str
  | [] => none
  | g :: gs =>
    match DANGEROUS_KEYWORDS.find? (fun kw => reWordSearch kw g) with
    | some kw => some kw
    | none => findDangerousInGroups gs

/-- `sql_normalized = sql.strip().upper()`. -/
def normalizeSql (sql : Str) : Str := pyUpper (pyStrip sql)

/-- The multiple-statement rule's preprocessing: drop one trailing `;`. -/
def stripTrailingSemicolon (t : Str) : Str :=
  if t.getLast? == some ';' then t.dropLast else t

/-- `validate_sql` from sql_validator.py. -/
def validate_sql (sql : Str) : Bool × Str :=
  if sql.isEmpty || (pyStrip sql).isEmpty then (false, msgEmpty)
  else if !((str "SELECT").isPrefixOf (normalizeSql sql)) then (false, msgSelectOnly)
  else
    match findDangerous (normalizeSql sql) with
    | some kw => (false, keywordMsg kw)
    | none =>
      if (stripTrailingSemicolon (pyStrip sql)).contains ';' then (false, msgMulti)
      else if INJECTION_PATTERNS.any (fun p => p (normalizeSql sql)) then (false, msgInjection)
      else
        match findDangerousInGroups (findParenGroups (normalizeSql sql)) with
        | some kw => (false, subqueryMsg kw)
        | none => (true, [])

/-- `kw` occurs in `s` as a whole word: `s` decomposes as `a ++ kw ++ b`
with a word boundary on each side of the occurrence (start/end of string,
or a neighbouring non-word character; surrounding whitespace is a special
case). -/
def OccursAsWord (kw s : Str) : Prop :=
  ∃ a b, s = a ++ kw ++ b ∧ leftBd a = true ∧ rightBd b = true

/-- The head of `l` exists and is not whitespace. -/
def headNotSpace (l : Str) : Bool :=
  match l.head? with
  | some c => !isPySpace c
  | none => false

/-! ### SQLExecutor (backend/services/sql_executor.py)

The sqlite layer is modelled as an environment: whether the database file
exists, and the outcome of connecting and running the (already validated)
query — the full result set on success, or one of the exception classes
caught by `execute`'s `try` block. -/

/-- A cell of a SQLite result row. -/
inductive Cell where
  | intVal (n : Int)
  | textVal (s : Str)
  | nullVal
deriving DecidableEq

/-- Outcome of the sqlite connect/execute/fetch steps inside the
`try` block of `SQLExecutor.execute`. -/
inductive SqliteOutcome where
  | ok (columns : List Str) (rows : List (List Cell))
  | timeoutErr
  | sqliteError (msg : Str)
  | otherError (msg : Str)
deriving DecidableEq

/-- The environment `SQLExecutor.execute` runs against. -/
structure ExecEnv where
  fileExists : Bool
  outcome : SqliteOutcome
deriving DecidableEq

/-- The result dictionary built by `SQLExecutor.execute`.  `has_more` is
`none` when the key is absent (the failure dictionaries). -/
structure ExecResult where
  success : Bool
  columns : List Str
  rows : List (List Cell)
  row_count : Nat
  has_more : Option Bool
  error : Str
deriving DecidableEq

/-- The failure dictionary shape shared by all error returns. -/
def failResult (msg : Str) : ExecResult :=
  { success := false, columns := [], rows := [], row_count := 0, has_more := none, error := msg }

/-- Error message for a missing database file. -/
def notFoundMsg (db_path : Str) : Str := str "Veritabanı bulunamadı: " ++ db_path

/-- Message of the custom `TimeoutError` raised by the alarm handler. -/
def timeoutMsg : Str := str "Sorgu zaman aşımına uğradı."

/-- Error message for a `sqlite3.Error`. -/
def dbErrorMsg (m : Str) : Str := str "Veritabanı hatası: " ++ m

/-- Error message for any other exception. -/
def unexpectedMsg (m : Str) : Str := str "Beklenmeyen hata: " ++ m

/-- `SQLExecutor.execute` from sql_executor.py: validate, check the file,
then run the query; `fetchmany(max_rows)` is `take max_rows` of the true
result set, and `has_more` records whether exactly `max_rows` rows came
back. -/
def SQLExecutor.execute (max_rows : Nat) (env : ExecEnv) (db_path sql : Str) : ExecResult :=
  if !(validate_sql sql).1 then failResult (validate_sql sql).2
  else if !env.fileExists then failResult (notFoundMsg db_path)
  else
    match env.outcome with
    | SqliteOutcome.ok columns allRows =>
      { success := true, columns := columns, rows := allRows.take max_rows,
        row_count := (allRows.take max_rows).length,
        has_more := some ((allRows.take max_rows).length == max_rows), error := [] }
    | SqliteOutcome.timeoutErr => failResult timeoutMsg
    | SqliteOutcome.sqliteError m => failResult (dbErrorMsg m)
    | SqliteOutcome.otherError m => failResult (unexpectedMsg m)

/-! ### Confidence score (backend/routes/chat.py)

Python floats are modelled as rationals. -/

/-- `calculate_confidence_score` from chat.py. -/
def calculate_confidence_score (similarity : ℚ) (sql_valid : Bool)
    (execution_success : Bool) (row_count : Nat) : ℚ :=
  let SIMILARITY_WEIGHT : ℚ := 0.5
  let SQL_VALIDITY_WEIGHT : ℚ := 0.2
  let EXECUTION_WEIGHT : ℚ := 0.2
  let RESULT_WEIGHT : ℚ := 0.1
  let similarity_score := similarity * 100
  let sql_score : ℚ := if sql_valid then 100 else 0
  let execution_score : ℚ := if execution_success then 100 else 0
  let result_score : ℚ := if row_count > 0 then 100 else 50
  let confidence := similarity_score * SIMILARITY_WEIGHT + sql_score * SQL_VALIDITY_WEIGHT +
    execution_score * EXECUTION_WEIGHT + result_score * RESULT_WEIGHT
  max 0 (min 100 confidence)

/-- The spec's formula, written as the spec states it: `50% × (similarity×100)
+ 20% × (100 if query valid else 0) + 20% × (100 if executed successfully
else 0) + 10% × (100 if rowCount>0 else 50)`, clamped to `[0,100]`. -/
def specConfidenceFormula (similarity : ℚ) (sql_valid : Bool)
    (execution_success : Bool) (row_count : Nat) : ℚ :=
  max 0 (min 100 ((0.5 : ℚ) * (similarity * 100) +
    (0.2 : ℚ) * (if sql_valid then 100 else 0) +
    (0.2 : ℚ) * (if execution_success then 100 else 0) +
    (0.1 : ℚ) * (if row_count > 0 then 100 else 50)))

/-! ### SchemaIndexer.search (backend/indexing/schema_indexer.py)

The ChromaDB query result is the environment: a list of (id, document,
cosine distance) rows; `search` formats them into candidates with
`similarity = 1 - distance`. -/

/-- One row of the ChromaDB query result. -/
structure ChromaRow where
  id : Str
  document : Str
  distance : ℚ
deriving DecidableEq

/-- A formatted candidate as produced by `SchemaIndexer.search`. -/
structure Candidate where
  name : Str
  document : Str
  distance : ℚ
  similarity : ℚ
deriving DecidableEq

/-- `SchemaIndexer.search` from schema_indexer.py, as a function of the raw
index response. -/
def SchemaIndexer.search (raw : List ChromaRow) : List Candidate :=
  raw.map (fun r =>
    { name := r.id, document := r.document, distance := r.distance,
      similarity := 1 - r.distance })

/-! ### The chat route (backend/routes/chat.py)

The route is modelled as a function of an environment holding the outcome
of each external call (semantic search, the combined select+generate LLM
call, the schema table, the sqlite world, and the explanation LLM call).
Python exceptions are explicit: the route returns either an
`HTTPError` (from a raised/escaped exception, as the route's own handlers
translate it) or a `ChatResponse`.  Alongside the result it returns the
trace of retrieval/generation calls that were actually made.  The `timing`
and `detection_info` response fields are wall-clock/debug data and are not
modelled. -/

/-- A Python exception as the chat handler distinguishes them. -/
inductive PyExc where
  | valueError (msg : Str)
  | otherExc (msg : Str)
deriving DecidableEq

/-- A FastAPI `HTTPException` payload. -/
structure HTTPError where
  status : Nat
  detail : Str
deriving DecidableEq

/-- The chat route's exception handlers: `ValueError` becomes a 400 with
the message, every other exception a 500 with the generic prefix. -/
def pyHandler (e : PyExc) : HTTPError :=
  match e with
  | PyExc.valueError m => { status := 400, detail := m }
  | PyExc.otherExc m => { status := 500, detail := str "Sunucu hatası: " ++ m }

/-- Retrieval / generation calls traced by the model. -/
inductive Event where
  | searchCall
  | llmGenerateCall
  | explainCall
deriving DecidableEq

/-- A database schema entry (only the path is used by the route). -/
structure DbSchema where
  path : Str
deriving DecidableEq

/-- The dictionary returned by `LLMService.select_database_and_generate_sql`. -/
structure LlmSelectResult where
  selected : Candidate
  sql : Str
  db_name : Str
deriving DecidableEq

/-- Decidable equality for `Except` values (not derived in core). -/
def exceptDecEq {ε α : Type} [DecidableEq ε] [DecidableEq α] : DecidableEq (Except ε α)
  | Except.error a, Except.error b =>
    if h : a = b then Decidable.isTrue (congrArg Except.error h)
    else Decidable.isFalse (fun hc => h (Except.error.inj hc))
  | Except.error _, Except.ok _ => Decidable.isFalse (fun hc => Except.noConfusion hc)
  | Except.ok _, Except.error _ => Decidable.isFalse (fun hc => Except.noConfusion hc)
  | Except.ok a, Except.ok b =>
    if h : a = b then Decidable.isTrue (congrArg Except.ok h)
    else Decidable.isFalse (fun hc => h (Except.ok.inj hc))

instance {ε α : Type} [DecidableEq ε] [DecidableEq α] : DecidableEq (Except ε α) := exceptDecEq

/-- The environment of one chat request. -/
structure ChatEnv where
  searchOutcome : Except PyExc (List Candidate)
  llmOutcome : Except PyExc LlmSelectResult
  schemas : List (Str × DbSchema)
  execEnv : ExecEnv
  explanationOutcome : Except PyExc Str
deriving DecidableEq

/-- The chat response model (without the unmodelled timing/debug fields). -/
structure ChatResponse where
  success : Bool
  question : Str
  database : Str
  sql : Str
  columns : List Str
  rows : List (List Cell)
  row_count : Nat
  explanation : Str
  confidence_score : ℚ
  error : Str
deriving DecidableEq

/-- `modification_keywords` from chat.py, in source order. -/
def modification_keywords : List Str :=
  [str "SİL", str "SILL", str "DELETE", str "KALDIR",
   str "GÜNCELLE", str "UPDATE", str "DEĞİŞTİR",
   str "EKLE", str "INSERT", str "KAYDET", str "YAZ",
   str "OLUŞTUR", str "CREATE", str "YAP",
   str "DROP", str "DÜŞÜR"]

/-- The fixed refusal message for mutation-intent questions. -/
def refusalMsg : Str :=
  str "Üzgünüm, sadece veri sorgulama işlemlerini destekliyorum. Veri ekleme, güncelleme veya silme işlemleri yapamam. Başka nasıl yardımcı olabilirim?"

/-- The response returned by the mutation-keyword screen. -/
def refusalResponse (question : Str) : ChatResponse :=
  { success := false, question := question, database := [], sql := [], columns := [],
    rows := [], row_count := 0, explanation := [], confidence_score := 0, error := refusalMsg }

/-- The shape shared by the route's structured failure responses. -/
def failureResponse (question db_name sql err : Str) (conf : ℚ) : ChatResponse :=
  { success := false, question := question, database := db_name, sql := sql, columns := [],
    rows := [], row_count := 0, explanation := [], confidence_score := conf, error := err }

/-- Python `str.replace(pat, "")`, fueled for structural recursion; the
fuel (`s.length` at the top call) never runs out. -/
def removeAllF (pat : Str) : Nat → Str → Str
  | _, [] => []
  | 0, s => s
  | fuel + 1, c :: rest =>
    if pat.isPrefixOf (c :: rest) && !pat.isEmpty then
      removeAllF pat fuel ((c :: rest).drop pat.length)
    else c :: removeAllF pat fuel rest

/-- Python `s.replace(pat, "")`. -/
def removeAll (pat s : Str) : Str := removeAllF pat s.length s

/-- `schemas.get(db_name)`. -/
def lookupSchema (schemas : List (Str × DbSchema)) (name : Str) : Option DbSchema :=
  (schemas.find? (fun p => p.1 == name)).map Prod.snd

/-- The `chat` route from chat.py.  Each branch mirrors the source in
order: empty-question guard, mutation-keyword screen, semantic search, the
logging statement that indexes `candidates[0]` (raising `IndexError` on an
empty candidate list before the emptiness check is reached), the combined
LLM call, schema lookup, the `BELIRSIZ`/`ALAKASIZ`/`VERI_YOK` prefixes,
validation, execution, and explanation generation. -/
def chat (env : ChatEnv) (max_rows : Nat) (reqQuestion : Str) :
    Except HTTPError ChatResponse × List Event :=
  let question := pyStrip reqQuestion
  if question.isEmpty then (Except.error { status := 400, detail := str "Soru boş olamaz." }, [])
  else
    let question_upper := pyUpper question
    if modification_keywords.any (fun kw => hasSubstr kw question_upper) then
      (Except.ok (refusalResponse question), [])
    else
      match env.searchOutcome with
      | Except.error e => (Except.error (pyHandler e), [Event.searchCall])
      | Except.ok candidates =>
        match candidates with
        | [] =>
          -- the timing log line evaluates candidates[0]["similarity"]; on an empty
          -- list this raises IndexError before `if not candidates` can run
          (Except.error (pyHandler (PyExc.otherExc (str "list index out of range"))),
           [Event.searchCall])
        | _ :: _ =>
          match env.llmOutcome with
          | Except.error e => (Except.error (pyHandler e), [Event.searchCall, Event.llmGenerateCall])
          | Except.ok r =>
            match lookupSchema env.schemas r.db_name with
            | none =>
              (Except.error (pyHandler (PyExc.valueError
                 (str "Veritabanı şeması bulunamadı: " ++ r.db_name))),
               [Event.searchCall, Event.llmGenerateCall])
            | some schema =>
              if (str "BELIRSIZ").isPrefixOf r.sql then
                (Except.ok (failureResponse question r.db_name []
                   (str "❓ Sorunuz biraz belirsiz. " ++ pyStrip (removeAll (str "BELIRSIZ:") r.sql))
                   (calculate_confidence_score r.selected.similarity false false 0)),
                 [Event.searchCall, Event.llmGenerateCall])
              else if (str "ALAKASIZ").isPrefixOf r.sql then
                (Except.ok (failureResponse question r.db_name []
                   (str "Sanırım sorunuzu tam anlayamadım. Şunu mu sormak istediniz: '" ++
                    pyStrip (removeAll (str "ALAKASIZ:") r.sql) ++
                    str "'? Veya bu konuda size nasıl yardımcı olabilirim?")
                   (calculate_confidence_score r.selected.similarity false false 0)),
                 [Event.searchCall, Event.llmGenerateCall])
              else if (str "VERI_YOK").isPrefixOf r.sql then
                (Except.ok (failureResponse question r.db_name []
                   (str "Bu veritabanında istenen bilgi bulunamadı: " ++
                    pyStrip (removeAll (str "VERI_YOK:") r.sql))
                   (calculate_confidence_score r.selected.similarity false false 0)),
                 [Event.searchCall, Event.llmGenerateCall])
              else
                let v := validate_sql r.sql
                if !v.1 then
                  (Except.ok (failureResponse question r.db_name r.sql v.2
                     (calculate_confidence_score r.selected.similarity false false 0)),
                   [Event.searchCall, Event.llmGenerateCall])
                else
                  let exec_result := SQLExecutor.execute max_rows env.execEnv schema.path r.sql
                  if !exec_result.success then
                    (Except.ok (failureResponse question r.db_name r.sql exec_result.error
                       (calculate_confidence_score r.selected.similarity true false 0)),
                     [Event.searchCall, Event.llmGenerateCall])
                  else
                    match env.explanationOutcome with
                    | Except.error e =>
                      (Except.error (pyHandler e),
                       [Event.searchCall, Event.llmGenerateCall, Event.explainCall])
                    | Except.ok explanation =>
                      (Except.ok
                        { success := true, question := question, database := r.db_name,
                          sql := r.sql, columns := exec_result.columns, rows := exec_result.rows,
                          row_count := exec_result.row_count, explanation := explanation,
                          confidence_score := calculate_confidence_score r.selected.similarity
                            true true exec_result.row_count,
                          error := [] },
                       [Event.searchCall, Event.llmGenerateCall, Event.explainCall])

/-- A fixed retrieval candidate used by the concrete chat scenarios. -/
def goodCandidate : Candidate :=
  { name := str "db", document := str "doc", distance := 1/2, similarity := 1/2 }

/-- Chat environment in which retrieval and the combined LLM call succeed,
execution succeeds, and the explanation LLM call raises (as
`LLMService.generate` wraps any failure into a `RuntimeError`). -/
def explainFailEnv : ChatEnv :=
  { searchOutcome := Except.ok [goodCandidate],
    llmOutcome := Except.ok
      { selected := goodCandidate, sql := str "SELECT * FROM t", db_name := str "db" },
    schemas := [(str "db", { path := str "/data/db.sqlite" })],
    execEnv := { fileExists := true, outcome := SqliteOutcome.ok [str "A"] [[Cell.intVal 1]] },
    explanationOutcome := Except.error (PyExc.otherExc (str "LLM generation failed: boom")) }

/-- Chat environment whose retrieval returns zero candidates. -/
def emptySearchEnv : ChatEnv :=
  { searchOutcome := Except.ok [],
    llmOutcome := Except.error (PyExc.otherExc (str "unused")),
    schemas := [],
    execEnv := { fileExists := false, outcome := SqliteOutcome.timeoutErr },
    explanationOutcome := Except.error (PyExc.otherExc (str "unused")) }

/-- Chat environment for the mutation-screen scenario; none of its fields
is ever reached. -/
def screenEnv : ChatEnv :=
  { searchOutcome := Except.ok [],
    llmOutcome := Except.error (PyExc.otherExc (str "unused")),
    schemas := [],
    execEnv := { fileExists := false, outcome := SqliteOutcome.timeoutErr },
    explanationOutcome := Except.error (PyExc.otherExc (str "unused")) }

/-! ## Theorems -/

theorem isWordChar_toUpper (c : Char) : isWordChar (Char.toUpper c) = isWordChar c := by
  by_cases h : c.toNat ≥ 97 ∧ c.toNat ≤ 122
  · have hup : Char.toUpper c = Char.ofNat (c.toNat - 32) := by
      simp [Char.toUpper, h]
    rw [hup]
    unfold isWordChar
    obtain ⟨h1, h2⟩ := h
    generalize c.toNat = n at h1 h2 ⊢
    interval_cases n <;> decide
  · have hup : Char.toUpper c = c := by simp [Char.toUpper, h]
    rw [hup]

theorem isPySpace_toUpper (c : Char) : isPySpace (Char.toUpper c) = isPySpace c := by
  by_cases h : c.toNat ≥ 97 ∧ c.toNat ≤ 122
  · have hup : Char.toUpper c = Char.ofNat (c.toNat - 32) := by
      simp [Char.toUpper, h]
    rw [hup]
    unfold isPySpace
    obtain ⟨h1, h2⟩ := h
    generalize c.toNat = n at h1 h2 ⊢
    interval_cases n <;> decide
  · have hup : Char.toUpper c = c := by simp [Char.toUpper, h]
    rw [hup]

theorem rightBd_pyUpper (l : Str) : rightBd (pyUpper l) = rightBd l := by
  cases l with
  | nil => rfl
  | cons c t => simp [pyUpper, rightBd, isWordChar_toUpper]

theorem pyUpper_reverse (l : Str) : (pyUpper l).reverse = pyUpper l.reverse := by
  simp [pyUpper]

theorem leftBd_pyUpper (l : Str) : leftBd (pyUpper l) = leftBd l := by
  unfold leftBd
  rw [pyUpper_reverse, rightBd_pyUpper]

theorem rightBd_append_singleton {l : Str} {c : Char} (h : l ≠ []) :
    rightBd (l ++ [c]) = rightBd l := by
  cases l with
  | nil => exact absurd rfl h
  | cons e t => rfl

theorem leftBd_cons_of_ne {c : Char} {a : Str} (h : a ≠ []) : leftBd (c :: a) = leftBd a := by
  unfold leftBd
  rw [List.reverse_cons, rightBd_append_singleton (by simpa using h)]

theorem headNotSpace_pyUpper (l : Str) : headNotSpace (pyUpper l) = headNotSpace l := by
  cases l with
  | nil => rfl
  | cons c t => simp [pyUpper, headNotSpace, isPySpace_toUpper]

theorem occursAsWord_upper {kw s : Str} (h : OccursAsWord kw s) :
    OccursAsWord (pyUpper kw) (pyUpper s) := by
  obtain ⟨a, b, rfl, hl, hr⟩ := h
  refine ⟨pyUpper a, pyUpper b, ?_, ?_, ?_⟩
  · simp [pyUpper]
  · rw [leftBd_pyUpper]; exact hl
  · rw [rightBd_pyUpper]; exact hr

theorem occursAsWord_reverse {kw s : Str} (h : OccursAsWord kw s) :
    OccursAsWord kw.reverse s.reverse := by
  obtain ⟨a, b, rfl, hl, hr⟩ := h
  refine ⟨b.reverse, a.reverse, ?_, ?_, ?_⟩
  · simp [List.reverse_append]
  · unfold leftBd; rw [List.reverse_reverse]; exact hr
  · unfold leftBd at hl; exact hl

theorem occursAsWord_dropWhile {c0 : Char} {kt : Str} (hc0 : isPySpace c0 = false) :
    ∀ (a : Str) (b : Str), leftBd a = true → rightBd b = true →
      OccursAsWord (c0 :: kt) ((a ++ (c0 :: kt) ++ b).dropWhile isPySpace) := by
  intro a
  induction a with
  | nil =>
    intro b _ hr
    refine ⟨[], b, ?_, rfl, hr⟩
    simp [List.dropWhile_cons, hc0]
  | cons c a' ih =>
    intro b hl hr
    by_cases hc : isPySpace c = true
    · have hstep : ((c :: a') ++ (c0 :: kt) ++ b).dropWhile isPySpace =
          (a' ++ (c0 :: kt) ++ b).dropWhile isPySpace := by
        simp [List.dropWhile_cons, hc]
      rw [hstep]
      have hl' : leftBd a' = true := by
        rcases ha' : a' with _ | ⟨d, t⟩
        · rfl
        · rw [ha'] at hl
          rw [leftBd_cons_of_ne (by simp)] at hl
          exact hl
      exact ih b hl' hr
    · have hstep : ((c :: a') ++ (c0 :: kt) ++ b).dropWhile isPySpace =
          (c :: a') ++ (c0 :: kt) ++ b := by
        simp only [Bool.not_eq_true] at hc
        simp [List.dropWhile_cons, hc]
      rw [hstep]
      exact ⟨c :: a', b, rfl, hl, hr⟩

theorem occursAsWord_pyStrip {kw s : Str} (hh : headNotSpace kw = true)
    (hrev : headNotSpace kw.reverse = true) (h : OccursAsWord kw s) :
    OccursAsWord kw (pyStrip s) := by
  have hne : kw ≠ [] := by
    intro he
    rw [he] at hh
    simp [headNotSpace] at hh
  obtain ⟨c0, kt, rfl⟩ : ∃ c0 kt, kw = c0 :: kt := by
    cases kw with
    | nil => exact absurd rfl hne
    | cons c t => exact ⟨c, t, rfl⟩
  have hc0 : isPySpace c0 = false := by
    simpa [headNotSpace] using hh
  obtain ⟨a, b, heq, hl, hr⟩ := h
  have h1 : OccursAsWord (c0 :: kt) (s.dropWhile isPySpace) := by
    rw [heq]
    exact occursAsWord_dropWhile hc0 a b hl hr
  have h2 : OccursAsWord (c0 :: kt).reverse (s.dropWhile isPySpace).reverse :=
    occursAsWord_reverse h1
  obtain ⟨d0, dt, hkr⟩ : ∃ d0 dt, (c0 :: kt).reverse = d0 :: dt := by
    cases hrv : (c0 :: kt).reverse with
    | nil => exact absurd hrv (by simp)
    | cons d t => exact ⟨d, t, rfl⟩
  rw [hkr] at h2 hrev
  have hd0 : isPySpace d0 = false := by
    simpa [headNotSpace] using hrev
  obtain ⟨a2, b2, heq2, hl2, hr2⟩ := h2
  have h3 : OccursAsWord (d0 :: dt) (((s.dropWhile isPySpace).reverse).dropWhile isPySpace) := by
    rw [heq2]
    exact occursAsWord_dropWhile hd0 a2 b2 hl2 hr2
  have h4 := occursAsWord_reverse h3
  rw [← hkr, List.reverse_reverse] at h4
  exact h4

theorem wordAt_self_append {kw b : Str} (hr : rightBd b = true) : wordAt kw (kw ++ b) = true := by
  unfold wordAt
  rw [List.drop_left, hr]
  simp [List.isPrefixOf_iff_prefix]

theorem reWordSearchGo_complete (kw : Str) :
    ∀ (a : Str) (prev : Bool) (b : Str), leftBd a = true → rightBd b = true →
      (a = [] → prev = false) → reWordSearchGo kw prev (a ++ kw ++ b) = true := by
  intro a
  induction a with
  | nil =>
    intro prev b _ hr hprev
    have hp := hprev rfl
    subst hp
    have hw := @wordAt_self_append kw b hr
    rcases hkb : kw ++ b with _ | ⟨c, rest⟩ <;> rw [hkb] at hw <;>
      rw [List.nil_append, hkb] <;> simp [reWordSearchGo, hw]
  | cons c a' ih =>
    intro prev b hl hr _
    have hrec : reWordSearchGo kw (isWordChar c) (a' ++ kw ++ b) = true := by
      have hl' : leftBd a' = true := by
        rcases ha' : a' with _ | ⟨d, t⟩
        · rfl
        · rw [ha'] at hl
          rw [leftBd_cons_of_ne (by simp)] at hl
          exact hl
      have hprev' : a' = [] → isWordChar c = false := by
        intro ha'
        rw [ha'] at hl
        simpa [leftBd, rightBd] using hl
      exact ih (isWordChar c) b hl' hr hprev'
    show ((!prev && wordAt kw ((c :: a') ++ kw ++ b)) ||
      reWordSearchGo kw (isWordChar c) (a' ++ kw ++ b)) = true
    rw [hrec]
    simp

theorem reWordSearch_complete {kw s : Str} (h : OccursAsWord kw s) :
    reWordSearch kw s = true := by
  obtain ⟨a, b, rfl, hl, hr⟩ := h
  exact reWordSearchGo_complete kw a false b hl hr (fun _ => rfl)

theorem keyword_head_facts {kw : Str} (hkw : kw ∈ DANGEROUS_KEYWORDS) :
    headNotSpace kw = true ∧ headNotSpace kw.reverse = true := by
  fin_cases hkw <;> exact ⟨by decide, by decide⟩

/-- C1: for every query string `q` in which a denylisted keyword occurs as
a whole word — in any letter case (`kwAny` is any casing of the keyword
`kw`) and with any surrounding non-word characters, whitespace included —
`validate_sql q` rejects: its first component is `false`. -/
theorem validate_sql_rejects_denylisted_keyword (q kwAny kw : Str)
    (hkw : kw ∈ DANGEROUS_KEYWORDS) (hup : pyUpper kwAny = kw)
    (hocc : OccursAsWord kwAny q) : (validate_sql q).1 = false := by
  have hfacts := keyword_head_facts hkw
  have hAnyHead : headNotSpace kwAny = true := by
    rw [← headNotSpace_pyUpper, hup]
    exact hfacts.1
  have hAnyRev : headNotSpace kwAny.reverse = true := by
    have h2 := hfacts.2
    rw [← hup, pyUpper_reverse, headNotSpace_pyUpper] at h2
    exact h2
  have hstrip := occursAsWord_pyStrip hAnyHead hAnyRev hocc
  have hnorm : OccursAsWord kw (normalizeSql q) := by
    rw [← hup]
    exact occursAsWord_upper hstrip
  have hsearch := reWordSearch_complete hnorm
  obtain ⟨kwf, hkwf⟩ : ∃ kwf, findDangerous (normalizeSql q) = some kwf := by
    rcases hf : findDangerous (normalizeSql q) with _ | kwf
    · exfalso
      unfold findDangerous at hf
      have hnone := List.find?_eq_none.mp hf kw hkw
      simp [hsearch] at hnone
    · exact ⟨kwf, rfl⟩
  unfold validate_sql
  split
  · rfl
  · split
    · rfl
    · rw [hkwf]

/-- Witness for C1 at a concrete query containing `drop` in lower case. -/
theorem validate_sql_rejects_denylisted_keyword_witness :
    (validate_sql (str "select * from t where x = drop")).1 = false := by
  apply validate_sql_rejects_denylisted_keyword
    (str "select * from t where x = drop") (str "drop") (str "DROP")
  · decide
  · decide
  · exact ⟨str "select * from t where x = ", [], by decide, by decide, by decide⟩

theorem keywordMsg_ne_nil (kw : Str) : keywordMsg kw ≠ [] := by
  intro h
  have hh : (keywordMsg kw).head? = some 'G' := rfl
  rw [h] at hh
  exact Option.noConfusion hh

theorem subqueryMsg_ne_nil (kw : Str) : subqueryMsg kw ≠ [] := by
  intro h
  have hh : (subqueryMsg kw).head? = some 'G' := rfl
  rw [h] at hh
  exact Option.noConfusion hh

theorem notFoundMsg_ne_nil (p : Str) : notFoundMsg p ≠ [] := by
  intro h
  have hh : (notFoundMsg p).head? = some 'V' := rfl
  rw [h] at hh
  exact Option.noConfusion hh

theorem dbErrorMsg_ne_nil (m : Str) : dbErrorMsg m ≠ [] := by
  intro h
  have hh : (dbErrorMsg m).head? = some 'V' := rfl
  rw [h] at hh
  exact Option.noConfusion hh

theorem unexpectedMsg_ne_nil (m : Str) : unexpectedMsg m ≠ [] := by
  intro h
  have hh : (unexpectedMsg m).head? = some 'B' := rfl
  rw [h] at hh
  exact Option.noConfusion hh

theorem validate_sql_error_nonempty (sql : Str) :
    (validate_sql sql).1 = false → (validate_sql sql).2 ≠ [] := by
  unfold validate_sql
  split
  · intro _
    decide
  · split
    · intro _
      decide
    · split
      · intro _
        exact keywordMsg_ne_nil _
      · split
        · intro _
          decide
        · split
          · intro _
            decide
          · split
            · intro _
              exact subqueryMsg_ne_nil _
            · intro h
              exact absurd h (by decide)

/-- C2: `SQLExecutor.execute` returns a structured result for every
environment outcome (the match over `ExecEnv` is exhaustive over the
exception classes the `try` block catches, so nothing escapes): every
non-success result carries a non-empty error message, and with valid SQL a
nonexistent database file yields exactly the structured not-found failure. -/
theorem execute_structured_errors (max_rows : Nat) (env : ExecEnv) (db_path sql : Str) :
    ((SQLExecutor.execute max_rows env db_path sql).success = false →
      (SQLExecutor.execute max_rows env db_path sql).error ≠ []) ∧
    ((validate_sql sql).1 = true → env.fileExists = false →
      SQLExecutor.execute max_rows env db_path sql = failResult (notFoundMsg db_path) ∧
      notFoundMsg db_path ≠ []) := by
  constructor
  · unfold SQLExecutor.execute
    split
    · intro hsucc
      rename_i hvt
      exact validate_sql_error_nonempty sql (by simpa using hvt)
    · split
      · intro _
        exact notFoundMsg_ne_nil db_path
      · split
        · intro h
          exact absurd h (by simp)
        · intro _
          decide
        · intro _
          exact dbErrorMsg_ne_nil _
        · intro _
          exact unexpectedMsg_ne_nil _
  · intro hvalid hex
    refine ⟨?_, notFoundMsg_ne_nil db_path⟩
    simp [SQLExecutor.execute, hvalid, hex]

/-- Witness for C2: a valid query against a missing database file. -/
theorem execute_structured_errors_witness :
    SQLExecutor.execute 5 ⟨false, SqliteOutcome.timeoutErr⟩ (str "/tmp/missing.sqlite")
        (str "SELECT 1") = failResult (notFoundMsg (str "/tmp/missing.sqlite")) ∧
    (SQLExecutor.execute 5 ⟨false, SqliteOutcome.timeoutErr⟩ (str "/tmp/missing.sqlite")
        (str "SELECT 1")).error ≠ [] := by
  have h := execute_structured_errors 5 ⟨false, SqliteOutcome.timeoutErr⟩
    (str "/tmp/missing.sqlite") (str "SELECT 1")
  have h2 := h.2 (by decide) rfl
  refine ⟨h2.1, ?_⟩
  rw [h2.1]
  exact h2.2

/-- C3 counterexample: `validate_sql "SELECT * FROM t; DROP TABLE t;"`
does reject, but with the DROP-keyword reason (the keyword rule runs
before the multiple-statement rule), not the multiple-statement reason. -/
theorem validate_multi_statement_reason_counterexample :
    validate_sql (str "SELECT * FROM t; DROP TABLE t;") = (false, keywordMsg (str "DROP")) ∧
    keywordMsg (str "DROP") ≠ msgMulti := by
  exact ⟨by decide, by decide⟩

/-- C3 amended: the two-statement query is rejected — with the
dangerous-keyword ('DROP') reason, since rules apply in order and the
keyword rule precedes the multiple-statement rule — and the
single-statement query with one trailing terminator is accepted. -/
theorem validate_multi_statement_amended :
    validate_sql (str "SELECT * FROM t; DROP TABLE t;") = (false, keywordMsg (str "DROP")) ∧
    validate_sql (str "SELECT * FROM t;") = (true, []) := by
  exact ⟨by decide, by decide⟩

/-- C4: when the database file exists, the SQL is valid and the true
result set holds strictly more than `max_rows` rows, `execute` returns
exactly `max_rows` rows, reports `row_count = max_rows`, and sets
`has_more = true`. -/
theorem execute_truncates_at_max_rows (max_rows : Nat) (env : ExecEnv) (db_path sql : Str)
    (cols : List Str) (allRows : List (List Cell))
    (hout : env.outcome = SqliteOutcome.ok cols allRows)
    (hex : env.fileExists = true)
    (hvalid : (validate_sql sql).1 = true)
    (hmore : max_rows < allRows.length) :
    (SQLExecutor.execute max_rows env db_path sql).rows.length = max_rows ∧
    (SQLExecutor.execute max_rows env db_path sql).row_count = max_rows ∧
    (SQLExecutor.execute max_rows env db_path sql).has_more = some true := by
  have hlen : (allRows.take max_rows).length = max_rows := by
    rw [List.length_take]
    omega
  have hred : SQLExecutor.execute max_rows env db_path sql =
      { success := true, columns := cols, rows := allRows.take max_rows,
        row_count := (allRows.take max_rows).length,
        has_more := some ((allRows.take max_rows).length == max_rows), error := [] } := by
    simp [SQLExecutor.execute, hvalid, hex, hout]
  rw [hred]
  exact ⟨hlen, hlen, by simp [hlen]⟩

/-- Witness for C4: three result rows against `max_rows = 2`. -/
theorem execute_truncates_at_max_rows_witness :
    (SQLExecutor.execute 2 ⟨true, SqliteOutcome.ok [str "A"]
        [[Cell.intVal 1], [Cell.intVal 2], [Cell.intVal 3]]⟩ (str "/data/db.sqlite")
        (str "SELECT 1")).rows.length = 2 ∧
    (SQLExecutor.execute 2 ⟨true, SqliteOutcome.ok [str "A"]
        [[Cell.intVal 1], [Cell.intVal 2], [Cell.intVal 3]]⟩ (str "/data/db.sqlite")
        (str "SELECT 1")).row_count = 2 ∧
    (SQLExecutor.execute 2 ⟨true, SqliteOutcome.ok [str "A"]
        [[Cell.intVal 1], [Cell.intVal 2], [Cell.intVal 3]]⟩ (str "/data/db.sqlite")
        (str "SELECT 1")).has_more = some true :=
  execute_truncates_at_max_rows 2 _ _ _ [str "A"]
    [[Cell.intVal 1], [Cell.intVal 2], [Cell.intVal 3]] rfl rfl (by decide) (by decide)

/-- C10: a query that begins with SELECT and mentions a denylisted keyword
only inside a quoted string literal is still rejected with the keyword
reason — the keyword scan runs over the whole upper-cased text and does
not recognise string literals. -/
theorem validate_sql_rejects_keyword_in_string_literal :
    (str "SELECT").isPrefixOf (str "SELECT * FROM t WHERE name = 'DROP'") = true ∧
    validate_sql (str "SELECT * FROM t WHERE name = 'DROP'") =
      (false, keywordMsg (str "DROP")) := by
  exact ⟨by decide, by decide⟩

/-- C6: the confidence score equals the spec's weighted clamped formula;
it is monotonically non-decreasing in the similarity with the other
factors held fixed; and it always lies in [0,100]. -/
theorem confidence_matches_spec_monotone_bounded
    (similarity s1 s2 : ℚ) (sql_valid execution_success : Bool) (row_count : Nat)
    (hmono : s1 ≤ s2) :
    calculate_confidence_score similarity sql_valid execution_success row_count =
      specConfidenceFormula similarity sql_valid execution_success row_count ∧
    calculate_confidence_score s1 sql_valid execution_success row_count ≤
      calculate_confidence_score s2 sql_valid execution_success row_count ∧
    0 ≤ calculate_confidence_score similarity sql_valid execution_success row_count ∧
    calculate_confidence_score similarity sql_valid execution_success row_count ≤ 100 := by
  have hclamp : ∀ x y : ℚ, x = y → max 0 (min 100 x) = max 0 (min 100 y) := by
    intro x y h
    rw [h]
  refine ⟨?_, ?_, ?_, ?_⟩
  · simp only [calculate_confidence_score, specConfidenceFormula]
    exact hclamp _ _ (by ring)
  · simp only [calculate_confidence_score]
    apply max_le_max le_rfl
    apply min_le_min le_rfl
    have h100 : s1 * 100 * 0.5 ≤ s2 * 100 * 0.5 := by nlinarith
    linarith
  · simp only [calculate_confidence_score]
    exact le_max_left 0 _
  · simp only [calculate_confidence_score]
    exact max_le (by norm_num) (min_le_left _ _)

/-- Witness for C6 at similarity 1/2 (and 1/4 ≤ 1/2 for monotonicity). -/
theorem confidence_matches_spec_monotone_bounded_witness :
    calculate_confidence_score (1/2) true true 3 = specConfidenceFormula (1/2) true true 3 ∧
    calculate_confidence_score (1/4) true true 3 ≤ calculate_confidence_score (1/2) true true 3 ∧
    0 ≤ calculate_confidence_score (1/2) true true 3 ∧
    calculate_confidence_score (1/2) true true 3 ≤ 100 :=
  confidence_matches_spec_monotone_bounded (1/2) (1/4) (1/2) true true 3 (by norm_num)

/-- C9 counterexample: a cosine distance of 3/2 — legal for cosine space,
whose distances range over [0,2] — yields similarity 1 - 3/2 = -1/2,
outside [0,1]; `search` applies no clamping. -/
theorem search_similarity_unit_interval_counterexample :
    (SchemaIndexer.search [{ id := str "db", document := str "doc", distance := 3/2 }]).map
      Candidate.similarity = [-(1/2 : ℚ)] ∧
    ¬(0 ≤ (-(1/2 : ℚ))) := by
  constructor
  · norm_num [SchemaIndexer.search]
  · norm_num

/-- C9 amended: for index cosine distances in [0,2], every candidate's
similarity `1 - distance` lies in [-1,1] (it lies in [0,1] exactly when
the distance is at most 1). -/
theorem search_similarity_bounds (raw : List ChromaRow)
    (hd : ∀ r ∈ raw, 0 ≤ r.distance ∧ r.distance ≤ 2) :
    ∀ c ∈ SchemaIndexer.search raw, -1 ≤ c.similarity ∧ c.similarity ≤ 1 := by
  intro c hc
  unfold SchemaIndexer.search at hc
  rw [List.mem_map] at hc
  obtain ⟨r, hr, rfl⟩ := hc
  obtain ⟨h0, h2⟩ := hd r hr
  constructor
  · show (-1 : ℚ) ≤ 1 - r.distance
    linarith
  · show (1 : ℚ) - r.distance ≤ 1
    linarith

/-- Witness for C9's amended bound at distance 1/2. -/
theorem search_similarity_bounds_witness :
    -1 ≤ ({ name := str "a", document := str "d", distance := 1/2,
            similarity := 1 - 1/2 } : Candidate).similarity ∧
    ({ name := str "a", document := str "d", distance := 1/2,
       similarity := 1 - 1/2 } : Candidate).similarity ≤ 1 := by
  have h := search_similarity_bounds [{ id := str "a", document := str "d", distance := 1/2 }]
    (by
      rintro r hr
      simp only [List.mem_singleton] at hr
      subst hr
      norm_num)
  exact h _ (by simp [SchemaIndexer.search])

/-- C5: whenever the (stripped, upper-cased) question contains one of the
fixed mutation-intent keywords, the route returns the fixed refusal
response — success `false`, confidence 0, the fixed refusal message — and
makes no retrieval or generation call at all (empty trace). -/
theorem chat_mutation_screen_short_circuits (env : ChatEnv) (max_rows : Nat) (reqQuestion : Str)
    (hkw : modification_keywords.any
      (fun kw => hasSubstr kw (pyUpper (pyStrip reqQuestion))) = true) :
    chat env max_rows reqQuestion = (Except.ok (refusalResponse (pyStrip reqQuestion)), []) := by
  have hne : (pyStrip reqQuestion).isEmpty = false := by
    rcases hq : pyStrip reqQuestion with _ | ⟨c, t⟩
    · rw [hq] at hkw
      exact absurd hkw (by decide)
    · rfl
  simp [chat, hne, hkw]

/-- Witness for C5 on a question containing `drop`. -/
theorem chat_mutation_screen_short_circuits_witness :
    chat screenEnv 100 (str "drop table") =
      (Except.ok (refusalResponse (pyStrip (str "drop table"))), []) :=
  chat_mutation_screen_short_circuits screenEnv 100 (str "drop table") (by decide)

/-- C7 (code bug): when execution has succeeded and the subsequent
explanation call fails, the `RuntimeError` raised by `LLMService.generate`
escapes — the route has no handler around step 4 — and the caller gets a
generic 500, not a successful response with an empty explanation. -/
theorem chat_explanation_failure_fails_request :
    chat explainFailEnv 100 (str "soru") =
      (Except.error { status := 500, detail := str "Sunucu hatası: LLM generation failed: boom" },
       [Event.searchCall, Event.llmGenerateCall, Event.explainCall]) := by
  decide

/-- C8 (code bug): with zero retrieval candidates, the route's timing log
line indexes `candidates[0]` before the emptiness check runs, so the
caller receives a generic 500 (`list index out of range`), not the
structured no-suitable-database failure message. -/
theorem chat_zero_candidates_generic_500 :
    chat emptySearchEnv 100 (str "soru") =
      (Except.error { status := 500, detail := str "Sunucu hatası: list index out of range" },
       [Event.searchCall]) ∧
    str "Sunucu hatası: list index out of range" ≠ str "Uygun veritabanı bulunamadı." := by
  exact ⟨by decide, by decide⟩

